import Mathlib

/-!
Shallow embedding of the pricing decision engine of the repository
Dynamic-Pricing-For-Perishable-Goods (files src/ml-service/main.py and
src/ml-service/training/train_model.py), together with theorems settling
the frozen claims about it.

Modelling conventions: Python floats become rationals, Python ints become
integers, Python strings become String. Code that can raise returns
Except PyErr; a try/except block becomes a match on that Except value.
External collaborators (the fitted preprocessor, the XGBoost model, the
numpy random source) are abstracted as function-valued parameters, since
their numeric behaviour is out of scope; every branch and arithmetic step
of the repository code itself is embedded literally.
-/

namespace DynamicPricing

/-- ProductData (main.py lines 42-50): the Snapshot of one product.
The pydantic Field constraints (gt=0, ge=0, demand in [0,1]) are
validation conditions; the embedding quantifies over the raw record and
adds those conditions as hypotheses where a claim needs them. -/
structure ProductData where
  current_price : ℚ
  days_to_expiry : ℤ
  stock_level : ℤ
  demand_score : ℚ
  category : String
  historical_sales : ℚ
  day_of_week : String
deriving DecidableEq

/-- A Python exception value as the embedding distinguishes them:
an HTTPException carrying a status code and a detail message, or any
other exception carrying its message. Both derive from Exception in
Python, so a generic except clause catches both constructors. -/
inductive PyErr where
  | httpException (status : ℕ) (detail : String)
  | exception (msg : String)
deriving DecidableEq

deriving instance DecidableEq for Except

/-- PredictionResponse (main.py lines 56-62). -/
structure PredictionResponse where
  recommended_price : ℚ
  confidence : Option ℚ
  factors : Option (List String)
  method : String
  timestamp : String
deriving DecidableEq

/-- BatchPredictionResponse (main.py lines 64-68). -/
structure BatchPredictionResponse where
  predictions : List PredictionResponse
  total_processed : ℕ
  timestamp : String
deriving DecidableEq

/-- The Python str.lower() call, character by character (the category and
day strings of this repository are ASCII). -/
def pyLower (s : String) : String := String.mk (s.data.map Char.toLower)

/-- The Python round-to-integer on an exact rational: nearest integer,
ties to even (the rounding Python round uses). -/
def pyRoundInt (x : ℚ) : ℤ :=
  let f : ℤ := x.num.fdiv (x.den : ℤ)
  let r : ℚ := x - (f : ℚ)
  if r < 1/2 then f
  else if 1/2 < r then f + 1
  else if f % 2 = 0 then f
  else f + 1

/-- The Python round(x, ndigits) on an exact rational. -/
def pyRound (x : ℚ) (ndigits : ℕ) : ℚ :=
  ((pyRoundInt (x * (10 : ℚ) ^ ndigits) : ℚ)) / (10 : ℚ) ^ ndigits

/-- Stage 1 of calculate_rule_based_price (main.py lines 169-188):
expiry-based multiplier, keyed on days_to_expiry. -/
def expiryFactor (days_to_expiry : ℤ) : ℚ :=
  if days_to_expiry ≤ 0 then 0.05
  else if days_to_expiry ≤ 1 then 0.25
  else if days_to_expiry ≤ 2 then 0.45
  else if days_to_expiry ≤ 3 then 0.60
  else if days_to_expiry ≤ 5 then 0.75
  else if days_to_expiry ≤ 7 then 0.85
  else if days_to_expiry ≤ 14 then 0.95
  else if days_to_expiry ≤ 21 then 1.0
  else 1.05

/-- Stage 2 of calculate_rule_based_price (main.py lines 190-204):
demand-based multiplier, keyed on demand_score. -/
def demandFactor (demand_score : ℚ) : ℚ :=
  if demand_score < 0.1 then 0.75
  else if demand_score < 0.3 then 0.85
  else if demand_score < 0.5 then 0.95
  else if demand_score < 0.7 then 1.0
  else if demand_score < 0.8 then 1.08
  else if demand_score < 0.9 then 1.15
  else 1.25

/-- Stage 3 of calculate_rule_based_price (main.py lines 206-220):
stock-level multiplier, keyed on stock_level. -/
def stockFactor (stock_level : ℤ) : ℚ :=
  if stock_level > 300 then 0.80
  else if stock_level > 200 then 0.90
  else if stock_level > 100 then 0.96
  else if stock_level > 50 then 1.0
  else if stock_level > 20 then 1.08
  else if stock_level > 10 then 1.15
  else 1.30

/-- Stage 4 of calculate_rule_based_price (main.py lines 222-232): sales
velocity multiplier, keyed on historical_sales. The source checks the
branches in this exact order (an if/elif chain with no trailing else), so
the later greater-than branches are shadowed by the 50 branch. -/
def salesFactor (historical_sales : ℚ) : ℚ :=
  if historical_sales < 5 then 0.85
  else if historical_sales < 20 then 0.92
  else if historical_sales > 50 then 1.05
  else if historical_sales > 100 then 1.10
  else if historical_sales > 200 then 1.15
  else 1.0

/-- Stage 5 of calculate_rule_based_price (main.py lines 234-245): the
category_adjustments dict lookup with default 1.0, on the lowercased
category string. -/
def categoryAdjustment (category : String) : ℚ :=
  if pyLower category = "meat" then 1.05
  else if pyLower category = "seafood" then 1.08
  else if pyLower category = "dairy" then 1.02
  else if pyLower category = "fruits" then 0.98
  else if pyLower category = "vegetables" then 0.96
  else if pyLower category = "bakery" then 0.95
  else if pyLower category = "other" then 1.0
  else 1.0

/-- The price_multiplier accumulated through the five stages of
calculate_rule_based_price (main.py lines 167-246), before the bounding
block: it starts at 1.0 and each stage multiplies into it. -/
def preMultiplier (pd : ProductData) : ℚ :=
  1.0 * expiryFactor pd.days_to_expiry * demandFactor pd.demand_score
    * stockFactor pd.stock_level * salesFactor pd.historical_sales
    * categoryAdjustment pd.category

/-- First bound of the intelligent price bounds block of
calculate_rule_based_price (main.py lines 248-253): a 0.70 floor on the
multiplier for fresh products with decent demand. -/
def floorBoundedMultiplier (pd : ProductData) : ℚ :=
  if pd.days_to_expiry > 0 ∧ pd.demand_score > 0.5 then max (preMultiplier pd) 0.70
  else preMultiplier pd

/-- Second bound of the intelligent price bounds block
(main.py lines 255-258): a 1.35 ceiling when stock_level is above 5. -/
def boundedMultiplier (pd : ProductData) : ℚ :=
  if pd.stock_level > 5 then min (floorBoundedMultiplier pd) 1.35
  else floorBoundedMultiplier pd

/-- calculate_rule_based_price (main.py lines 164-266): final price is
base times the bounded multiplier, floored at 5 percent of the current
price. -/
def calculate_rule_based_price (pd : ProductData) : ℚ :=
  let final_price := pd.current_price * boundedMultiplier pd
  let min_price := pd.current_price * 0.05
  max final_price min_price

/-- Expiry bucket of the factor list in predict_price
(main.py lines 348-356). -/
def expiryBucketFactors (days_to_expiry : ℤ) : List String :=
  if days_to_expiry ≤ 0 then ["expired_clearance"]
  else if days_to_expiry ≤ 1 then ["critical_expiry"]
  else if days_to_expiry ≤ 3 then ["expiry_proximity"]
  else if days_to_expiry ≤ 7 then ["short_shelf_life"]
  else []

/-- Stock bucket of the factor list in predict_price
(main.py lines 358-366): an if/elif chain, so at most one tag fires and
the final branch is only reached when stock_level is not below 20. -/
def stockBucketFactors (stock_level : ℤ) : List String :=
  if stock_level > 200 then ["excess_inventory"]
  else if stock_level > 100 then ["high_stock"]
  else if stock_level < 20 then ["low_stock"]
  else if stock_level < 10 then ["critical_stock"]
  else []

/-- Demand bucket of the factor list in predict_price
(main.py lines 368-374). -/
def demandBucketFactors (demand_score : ℚ) : List String :=
  if demand_score < 0.2 then ["low_demand"]
  else if demand_score > 0.8 then ["high_demand"]
  else if demand_score > 0.9 then ["peak_demand"]
  else []

/-- Sales velocity bucket of the factor list in predict_price
(main.py lines 376-380). -/
def salesBucketFactors (historical_sales : ℚ) : List String :=
  if historical_sales < 10 then ["slow_moving"]
  else if historical_sales > 100 then ["fast_moving"]
  else []

/-- Combined factors of the factor list in predict_price
(main.py lines 382-386): two independent if statements. -/
def combinedBucketFactors (pd : ProductData) : List String :=
  (if pd.days_to_expiry ≤ 3 ∧ pd.stock_level > 100 then ["urgent_clearance_needed"] else [])
    ++ (if pd.stock_level < 20 ∧ pd.demand_score > 0.7 then ["scarcity_premium"] else [])

/-- The Factor Explainer: the factors list assembled by predict_price
(main.py lines 345-386), appending bucket by bucket in source order. -/
def explainFactors (pd : ProductData) : List String :=
  expiryBucketFactors pd.days_to_expiry
    ++ stockBucketFactors pd.stock_level
    ++ demandBucketFactors pd.demand_score
    ++ salesBucketFactors pd.historical_sales
    ++ combinedBucketFactors pd

/-- The process-wide state predict_price reads: the optional loaded model
(model.predict on a feature row, which may raise any exception) and the
transform step inside preprocess_data (the DataFrame construction plus
preprocessor.transform or manual_preprocessing, main.py lines 110-126,
which may raise; its error is the exception message). -/
structure InferenceEnv where
  modelPredict : Option (List ℚ → Except PyErr ℚ)
  transform : ProductData → Except String (List ℚ)

/-- preprocess_data (main.py lines 107-132): runs the transform step and
converts any exception into an HTTPException with status 400 whose detail
carries the underlying cause. -/
def preprocess_data (env : InferenceEnv) (pd : ProductData) : Except PyErr (List ℚ) :=
  match env.transform pd with
  | .ok processed => .ok processed
  | .error e => .error (.httpException 400 ("Data preprocessing error: " ++ e))

/-- The confidence computed on the model path of predict_price
(main.py line 343). -/
def modelConfidence (prediction current_price : ℚ) : ℚ :=
  min 0.95 (max 0.6 (1.0 - |prediction - current_price| / current_price))

/-- The try block of predict_price (main.py lines 320-394): the no-model
branch returns the rule based response; the model branch preprocesses,
predicts, floors the prediction at 10 percent of current price, and
assembles the ml_model response with the factor list. Errors of the
preprocess step or of model.predict propagate out of this block. -/
def predictPriceBody (env : InferenceEnv) (now : String) (pd : ProductData) :
    Except PyErr PredictionResponse :=
  match env.modelPredict with
  | none =>
      .ok { recommended_price := pyRound (calculate_rule_based_price pd) 2
            confidence := some 0.6
            factors := some ["rule_based_fallback"]
            method := "rule_based"
            timestamp := now }
  | some modelPredict =>
      match preprocess_data env pd with
      | .error e => .error e
      | .ok processed =>
          match modelPredict processed with
          | .error e => .error e
          | .ok prediction =>
              let min_price := pd.current_price * 0.1
              let recommended_price := max prediction min_price
              .ok { recommended_price := pyRound recommended_price 2
                    confidence := some (pyRound (modelConfidence prediction pd.current_price) 3)
                    factors := some (explainFactors pd)
                    method := "ml_model"
                    timestamp := now }

/-- The response built by the except clause of predict_price
(main.py lines 396-406). -/
def errorFallbackResponse (now : String) (pd : ProductData) : PredictionResponse :=
  { recommended_price := pyRound (calculate_rule_based_price pd) 2
    confidence := some 0.5
    factors := some ["error_fallback"]
    method := "rule_based_fallback"
    timestamp := now }

/-- predict_price (main.py lines 317-406): the try block, with a generic
except clause that catches every exception (HTTPException included, since
it derives from Exception) and answers with the rule based fallback. -/
def predict_price (env : InferenceEnv) (now : String) (pd : ProductData) :
    Except PyErr PredictionResponse :=
  match predictPriceBody env now pd with
  | .ok r => .ok r
  | .error _ => .ok (errorFallbackResponse now pd)

/-- One loop iteration of batch_predict (main.py lines 414-429): the per
item try/except around predict_price, with the batch fallback response. -/
def batchItemResponse (env : InferenceEnv) (now : String) (pd : ProductData) :
    PredictionResponse :=
  match predict_price env now pd with
  | .ok r => r
  | .error _ =>
      { recommended_price := pyRound (calculate_rule_based_price pd) 2
        confidence := some 0.4
        factors := some ["batch_error_fallback"]
        method := "rule_based_fallback"
        timestamp := now }

/-- batch_predict (main.py lines 408-439): processes the products in
order, collecting one response per product; total_processed is the length
of the collected list. The outer except clause (status 500) is
unreachable in the embedding because every iteration is total, matching
the source where predict_price and the per item except swallow every
exception. -/
def batch_predict (env : InferenceEnv) (now : String) (products : List ProductData) :
    Except PyErr BatchPredictionResponse :=
  let predictions := products.map (batchItemResponse env now)
  .ok { predictions := predictions
        total_processed := predictions.length
        timestamp := now }

/-- The numpy random source used by the Synthetic Label Generator,
abstracted: uniform a b draws from [a, b], normal m s draws with mean m
and standard deviation s. The embedding needs no call sequencing because
calculate_target_price faults before its result could depend on it. -/
structure RandomSource where
  uniform : ℚ → ℚ → ℚ
  normal : ℚ → ℚ → ℚ

/-- calculate_target_price (training/train_model.py lines 81-215). The
function accumulates price_multiplier through its stochastic expiry,
demand, stock and sales velocity stages (lines 87-181), but the block
commented Historical sales influence (lines 184-187) and the category
adjustment (line 199) multiply into a local variable named price that no
earlier statement assigns; because price is assigned later (line 209),
Python treats it as local throughout, and the first read of it raises
UnboundLocalError. Line 199 runs unconditionally on every path that
passes lines 184-187, so the function raises on every input and never
reaches the 5 percent floor, the noise term, or the return. -/
def calculate_target_price (rng : RandomSource) (original_price : ℚ)
    (days_to_expiry : ℤ) (stock_level : ℤ) (demand_score : ℚ) (category : String)
    (historical_sales : ℚ) (day_of_week : String) : Except PyErr ℚ :=
  let m1 : ℚ := 1.0 *
    (if days_to_expiry ≤ 0 then rng.uniform 0.05 0.15
     else if days_to_expiry ≤ 1 then rng.uniform 0.20 0.40
     else if days_to_expiry ≤ 2 then rng.uniform 0.40 0.60
     else if days_to_expiry ≤ 3 then rng.uniform 0.55 0.75
     else if days_to_expiry ≤ 5 then rng.uniform 0.75 0.90
     else if days_to_expiry ≤ 7 then rng.uniform 0.88 0.98
     else if days_to_expiry ≤ 14 then rng.uniform 0.95 1.05
     else if days_to_expiry ≤ 21 then rng.uniform 0.98 1.10
     else rng.uniform 1.00 1.15)
  let m2 : ℚ := m1 *
    (if demand_score < 0.1 then rng.uniform 0.70 0.85
     else if demand_score < 0.3 then rng.uniform 0.80 0.95
     else if demand_score < 0.5 then rng.uniform 0.90 1.00
     else if demand_score < 0.7 then rng.uniform 0.95 1.05
     else if demand_score < 0.8 then rng.uniform 1.02 1.12
     else if demand_score < 0.9 then rng.uniform 1.08 1.20
     else rng.uniform 1.15 1.35)
  let m3 : ℚ := m2 *
    (if stock_level > 300 then rng.uniform 0.75 0.90
     else if stock_level > 200 then rng.uniform 0.85 0.95
     else if stock_level > 100 then rng.uniform 0.92 1.02
     else if stock_level > 50 then rng.uniform 0.98 1.05
     else if stock_level > 20 then rng.uniform 1.05 1.15
     else if stock_level > 10 then rng.uniform 1.12 1.25
     else rng.uniform 1.20 1.50)
  let m4 : ℚ := m3 *
    (if historical_sales < 5 then rng.uniform 0.80 0.92
     else if historical_sales < 20 then rng.uniform 0.90 0.98
     else if historical_sales > 50 then rng.uniform 1.02 1.08
     else if historical_sales > 100 then rng.uniform 1.05 1.15
     else if historical_sales > 200 then rng.uniform 1.10 1.25
     else 1.0)
  .error (.exception "UnboundLocalError: local variable price referenced before assignment")

/-- A projection used to state claims about the recommended price of a
prediction outcome. -/
def responsePrice : Except PyErr PredictionResponse → Option ℚ
  | .ok r => some r.recommended_price
  | .error _ => none

/-- The Snapshot of the specification scenario: current_price 10.00,
days_to_expiry 0, stock_level 50, demand_score 0.5, category dairy,
historical_sales 10. -/
def specScenarioSnapshot : ProductData :=
  { current_price := 10
    days_to_expiry := 0
    stock_level := 50
    demand_score := 0.5
    category := "dairy"
    historical_sales := 10
    day_of_week := "monday" }

/-- An environment with no model loaded. -/
def noModelEnv : InferenceEnv :=
  { modelPredict := none
    transform := fun _ => .ok [] }

/-- An environment with a model loaded whose preprocessing transform
raises. -/
def failingTransformEnv : InferenceEnv :=
  { modelPredict := some fun _ => .ok 1
    transform := fun _ => .error "transform failed" }

/-- An environment with a model loaded whose inference call raises while
preprocessing succeeds. -/
def inferenceErrorEnv : InferenceEnv :=
  { modelPredict := some fun _ => .error (.exception "model failure")
    transform := fun _ => .ok [] }

/-- A Snapshot with normal stock (above the scarcity threshold 5). -/
def normalStockSnapshot : ProductData :=
  { current_price := 10
    days_to_expiry := 5
    stock_level := 50
    demand_score := 0.5
    category := "dairy"
    historical_sales := 30
    day_of_week := "monday" }

/-- A Snapshot in the scarcity regime (stock_level 3, so the 1.35 ceiling
does not apply) that reaches the largest factor of every stage. -/
def scarcitySnapshot : ProductData :=
  { current_price := 10
    days_to_expiry := 30
    stock_level := 3
    demand_score := 0.95
    category := "seafood"
    historical_sales := 60
    day_of_week := "monday" }

/-- A Snapshot with historical_sales 150. -/
def fastMoverSnapshot : ProductData :=
  { current_price := 10
    days_to_expiry := 5
    stock_level := 50
    demand_score := 0.5
    category := "meat"
    historical_sales := 150
    day_of_week := "monday" }

/-! ## Helper lemmas on the stage factors -/

/-- Every expiry stage factor is positive and at most 1.05. -/
theorem expiryFactor_bounds (d : ℤ) : 0 < expiryFactor d ∧ expiryFactor d ≤ 1.05 := by
  unfold expiryFactor
  split_ifs <;> norm_num

/-- Every demand stage factor is positive and at most 1.25. -/
theorem demandFactor_bounds (s : ℚ) : 0 < demandFactor s ∧ demandFactor s ≤ 1.25 := by
  unfold demandFactor
  split_ifs <;> norm_num

/-- Every stock stage factor is positive and at most 1.30. -/
theorem stockFactor_bounds (n : ℤ) : 0 < stockFactor n ∧ stockFactor n ≤ 1.30 := by
  unfold stockFactor
  split_ifs <;> norm_num

/-- Every sales velocity stage factor is positive and at most 1.05: the
1.10 and 1.15 branches are unreachable because their guards contradict
the negation of the earlier greater-than-50 guard. -/
theorem salesFactor_bounds (h : ℚ) : 0 < salesFactor h ∧ salesFactor h ≤ 1.05 := by
  unfold salesFactor
  split_ifs with h1 h2 h3 h4 h5 <;> constructor <;>
    first | (norm_num; done) | linarith

/-- Every category adjustment is positive and at most 1.08. -/
theorem categoryAdjustment_bounds (c : String) :
    0 < categoryAdjustment c ∧ categoryAdjustment c ≤ 1.08 := by
  unfold categoryAdjustment
  split_ifs <;> norm_num

/-- The five-stage multiplier is positive and bounded by the product of
the reachable per-stage maxima. -/
theorem preMultiplier_bounds (pd : ProductData) :
    0 < preMultiplier pd ∧ preMultiplier pd ≤ 1.9348875 := by
  obtain ⟨e1, e2⟩ := expiryFactor_bounds pd.days_to_expiry
  obtain ⟨d1, d2⟩ := demandFactor_bounds pd.demand_score
  obtain ⟨s1, s2⟩ := stockFactor_bounds pd.stock_level
  obtain ⟨v1, v2⟩ := salesFactor_bounds pd.historical_sales
  obtain ⟨c1, c2⟩ := categoryAdjustment_bounds pd.category
  have h10 : (0 : ℚ) < 1.0 := by norm_num
  unfold preMultiplier
  constructor
  · exact mul_pos (mul_pos (mul_pos (mul_pos (mul_pos h10 e1) d1) s1) v1) c1
  · have b1 : 1.0 * expiryFactor pd.days_to_expiry ≤ 1.0 * 1.05 :=
      mul_le_mul_of_nonneg_left e2 (by norm_num)
    have b2 : 1.0 * expiryFactor pd.days_to_expiry * demandFactor pd.demand_score ≤
        1.0 * 1.05 * 1.25 := mul_le_mul b1 d2 d1.le (by norm_num)
    have b3 : 1.0 * expiryFactor pd.days_to_expiry * demandFactor pd.demand_score *
        stockFactor pd.stock_level ≤ 1.0 * 1.05 * 1.25 * 1.30 :=
      mul_le_mul b2 s2 s1.le (by norm_num)
    have b4 : 1.0 * expiryFactor pd.days_to_expiry * demandFactor pd.demand_score *
        stockFactor pd.stock_level * salesFactor pd.historical_sales ≤
        1.0 * 1.05 * 1.25 * 1.30 * 1.05 := mul_le_mul b3 v2 v1.le (by norm_num)
    have b5 : 1.0 * expiryFactor pd.days_to_expiry * demandFactor pd.demand_score *
        stockFactor pd.stock_level * salesFactor pd.historical_sales *
        categoryAdjustment pd.category ≤ 1.0 * 1.05 * 1.25 * 1.30 * 1.05 * 1.08 :=
      mul_le_mul b4 c2 c1.le (by norm_num)
    have hval : (1.0 : ℚ) * 1.05 * 1.25 * 1.30 * 1.05 * 1.08 = 1.9348875 := by norm_num
    linarith

/-- The 0.70-floored multiplier never exceeds the product of the
reachable per-stage maxima. -/
theorem floorBoundedMultiplier_le (pd : ProductData) :
    floorBoundedMultiplier pd ≤ 1.9348875 := by
  obtain ⟨-, hm⟩ := preMultiplier_bounds pd
  unfold floorBoundedMultiplier
  split_ifs
  · exact max_le hm (by norm_num)
  · exact hm

/-- The bounded multiplier never exceeds the product of the reachable
per-stage maxima, for every Snapshot (no hypothesis on stock). -/
theorem boundedMultiplier_le_absolute (pd : ProductData) :
    boundedMultiplier pd ≤ 1.9348875 := by
  unfold boundedMultiplier
  split_ifs
  · exact le_trans (min_le_right _ _) (by norm_num)
  · exact floorBoundedMultiplier_le pd

/-- The stock bucket of the Factor Explainer never emits critical_stock:
its guard stock_level below 10 is only checked when stock_level below 20
already failed. -/
theorem stockBucketFactors_no_critical (n : ℤ) :
    "critical_stock" ∉ stockBucketFactors n := by
  unfold stockBucketFactors
  split_ifs with h1 h2 h3 h4 <;> first | decide | (exfalso; omega)

/-- No bucket of the Factor Explainer emits critical_stock. -/
theorem explainFactors_no_critical (pd : ProductData) :
    "critical_stock" ∉ explainFactors pd := by
  have he : "critical_stock" ∉ expiryBucketFactors pd.days_to_expiry := by
    unfold expiryBucketFactors
    split_ifs <;> decide
  have hs := stockBucketFactors_no_critical pd.stock_level
  have hd : "critical_stock" ∉ demandBucketFactors pd.demand_score := by
    unfold demandBucketFactors
    split_ifs <;> decide
  have hv : "critical_stock" ∉ salesBucketFactors pd.historical_sales := by
    unfold salesBucketFactors
    split_ifs <;> decide
  have hc : "critical_stock" ∉ combinedBucketFactors pd := by
    unfold combinedBucketFactors
    split_ifs <;> decide
  unfold explainFactors
  simp only [List.mem_append, not_or]
  exact ⟨⟨⟨⟨he, hs⟩, hd⟩, hv⟩, hc⟩

/-! ## The claims -/

/-- Claim C1: for every Snapshot, calculate_rule_based_price returns at
least 0.05 times current_price, because the final step takes the max of
the computed price with current_price times 0.05. Proved with no
hypothesis at all, so in particular for every valid Snapshot. -/
theorem calculate_rule_based_price_floor (pd : ProductData) :
    0.05 * pd.current_price ≤ calculate_rule_based_price pd := by
  simp only [calculate_rule_based_price]
  have h := le_max_right (pd.current_price * boundedMultiplier pd) (pd.current_price * 0.05)
  linarith

/-- Claim C2: with a model loaded, when preprocessing succeeds and the
model inference raises, predict_price returns the rule based fallback
response (method rule_based_fallback, confidence 0.5, factors
error_fallback, price the rounded Calculator price) and never propagates
the error. -/
theorem predict_price_inference_error_fallback (env : InferenceEnv) (now : String)
    (pd : ProductData) (modelFn : List ℚ → Except PyErr ℚ) (processed : List ℚ) (e : PyErr)
    (hmodel : env.modelPredict = some modelFn)
    (hpre : env.transform pd = .ok processed)
    (hinf : modelFn processed = .error e) :
    predict_price env now pd =
      .ok { recommended_price := pyRound (calculate_rule_based_price pd) 2
            confidence := some 0.5
            factors := some ["error_fallback"]
            method := "rule_based_fallback"
            timestamp := now } := by
  unfold predict_price predictPriceBody preprocess_data errorFallbackResponse
  simp only [hmodel, hpre, hinf]

/-- Witness for claim C2 at a concrete environment whose model raises. -/
theorem predict_price_inference_error_fallback_witness :
    predict_price inferenceErrorEnv "t" specScenarioSnapshot =
      .ok { recommended_price := pyRound (calculate_rule_based_price specScenarioSnapshot) 2
            confidence := some 0.5
            factors := some ["error_fallback"]
            method := "rule_based_fallback"
            timestamp := "t" } :=
  predict_price_inference_error_fallback inferenceErrorEnv "t" specScenarioSnapshot
    (fun _ => .error (.exception "model failure")) [] (.exception "model failure") rfl rfl rfl

/-- Claim C3, counterexample: on the specification scenario Snapshot with
no model loaded, the recommended price is not 0.50 as the claim states
(the code computes multiplier 0.05 x 1.00 x 1.08 x 0.92 x 1.02 =
0.0506736, price 0.506736, above the 0.50 floor, rounded to 0.51). -/
theorem spec_scenario_price_counterexample :
    responsePrice (predict_price noModelEnv "t" specScenarioSnapshot) ≠ some 0.50 := by
  with_unfolding_all decide

/-- Claim C3, amended: on the specification scenario Snapshot with no
model loaded, predict_price returns method rule_based and recommended
price 0.51: the code stages give expiry 0.05, demand 1.00 (0.5 is not
below 0.5 so it falls to the below-0.7 branch), stock 1.08 (50 is not
above 50 so it falls to the above-20 branch), sales 0.92 (10 is below
20), category 1.02; the product 0.0506736 yields 0.506736, which exceeds
the absolute floor 0.50 and rounds to 0.51. -/
theorem spec_scenario_price :
    predict_price noModelEnv "t" specScenarioSnapshot =
      .ok { recommended_price := 0.51
            confidence := some 0.6
            factors := some ["rule_based_fallback"]
            method := "rule_based"
            timestamp := "t" } := by
  with_unfolding_all decide

/-- Claim C4, counterexample: the sales velocity stage at
historical_sales 150 contributes 1.05, not 1.10 as the claim states: the
source checks the branches in the order below 5, below 20, above 50,
above 100, above 200, so 150 is caught by the above-50 branch. -/
theorem salesFactor_150_counterexample :
    salesFactor 150 = 1.05 ∧ salesFactor (150 : ℚ) ≠ 1.10 := by
  with_unfolding_all decide

/-- Claim C4, amended: every Snapshot with historical_sales 150 takes the
above-50 branch of the sales velocity stage, contributing factor 1.05. -/
theorem salesFactor_150_branch (pd : ProductData) (h : pd.historical_sales = 150) :
    salesFactor pd.historical_sales = 1.05 := by
  rw [h]
  with_unfolding_all decide

/-- Witness for the amended claim C4 at a concrete Snapshot. -/
theorem salesFactor_150_branch_witness :
    salesFactor fastMoverSnapshot.historical_sales = 1.05 :=
  salesFactor_150_branch fastMoverSnapshot rfl

/-- Claim C5: calculate_target_price never completes: on every input and
every random source it raises UnboundLocalError, because the block
commented Historical sales influence and the category adjustment both
read the local variable price before any assignment to it. -/
theorem calculate_target_price_always_raises (rng : RandomSource) (original_price : ℚ)
    (days_to_expiry : ℤ) (stock_level : ℤ) (demand_score : ℚ) (category : String)
    (historical_sales : ℚ) (day_of_week : String) :
    calculate_target_price rng original_price days_to_expiry stock_level demand_score
        category historical_sales day_of_week =
      .error (.exception "UnboundLocalError: local variable price referenced before assignment") :=
  rfl

/-- Claim C6: when stock_level is above 5, the bounded multiplier is at
most 1.35 and calculate_rule_based_price returns at most 1.35 times
current_price. -/
theorem rule_price_ceiling (pd : ProductData) (hstock : pd.stock_level > 5)
    (hcp : 0 < pd.current_price) :
    boundedMultiplier pd ≤ 1.35 ∧
      calculate_rule_based_price pd ≤ 1.35 * pd.current_price := by
  have hb : boundedMultiplier pd ≤ 1.35 := by
    simp only [boundedMultiplier]
    rw [if_pos hstock]
    exact min_le_right _ _
  refine ⟨hb, ?_⟩
  simp only [calculate_rule_based_price]
  apply max_le
  · have := mul_le_mul_of_nonneg_left hb hcp.le
    linarith
  · linarith

/-- Witness for claim C6 at a concrete Snapshot with stock 50. -/
theorem rule_price_ceiling_witness :
    boundedMultiplier normalStockSnapshot ≤ 1.35 ∧
      calculate_rule_based_price normalStockSnapshot ≤
        1.35 * normalStockSnapshot.current_price :=
  rule_price_ceiling normalStockSnapshot (by norm_num [normalStockSnapshot])
    (by norm_num [normalStockSnapshot])

/-- Claim C7, counterexample: with a model loaded and a failing
preprocessing transform, predict_price answers with the rule based
fallback response and surfaces no error to the caller: the generic
except clause of predict_price catches the HTTPException that
preprocess_data raised. -/
theorem preprocess_error_swallowed_counterexample :
    predict_price failingTransformEnv "t" specScenarioSnapshot =
      .ok (errorFallbackResponse "t" specScenarioSnapshot)
    ∧ ¬ ∃ e : PyErr, predict_price failingTransformEnv "t" specScenarioSnapshot = .error e := by
  have h1 : predict_price failingTransformEnv "t" specScenarioSnapshot =
      .ok (errorFallbackResponse "t" specScenarioSnapshot) := rfl
  refine ⟨h1, ?_⟩
  rintro ⟨e, he⟩
  rw [h1] at he
  exact Except.noConfusion he

/-- Claim C7, amended: when the preprocessing transform fails under a
loaded model, preprocess_data does raise the 400 HTTPException carrying
the underlying cause, but the generic except clause of predict_price
catches it and the caller receives the rule based fallback response
instead of the error. -/
theorem preprocess_error_swallowed (env : InferenceEnv) (now : String) (pd : ProductData)
    (modelFn : List ℚ → Except PyErr ℚ) (msg : String)
    (hmodel : env.modelPredict = some modelFn)
    (htr : env.transform pd = .error msg) :
    preprocess_data env pd =
      .error (.httpException 400 ("Data preprocessing error: " ++ msg))
    ∧ predict_price env now pd = .ok (errorFallbackResponse now pd) := by
  have hp : preprocess_data env pd =
      .error (.httpException 400 ("Data preprocessing error: " ++ msg)) := by
    unfold preprocess_data
    rw [htr]
  refine ⟨hp, ?_⟩
  unfold predict_price predictPriceBody
  simp only [hmodel, hp]

/-- Witness for the amended claim C7 at a concrete environment. -/
theorem preprocess_error_swallowed_witness :
    preprocess_data failingTransformEnv specScenarioSnapshot =
      .error (.httpException 400 ("Data preprocessing error: " ++ "transform failed"))
    ∧ predict_price failingTransformEnv "t" specScenarioSnapshot =
      .ok (errorFallbackResponse "t" specScenarioSnapshot) :=
  preprocess_error_swallowed failingTransformEnv "t" specScenarioSnapshot
    (fun _ => .ok 1) "transform failed" rfl rfl

/-- Claim C8, counterexample: no Snapshot makes the factor list contain
both low_stock and critical_stock; the stock bucket is an ordered
first-match chain and the critical_stock branch is shadowed. -/
theorem low_and_critical_stock_never_together :
    ¬ ∃ pd : ProductData,
        "low_stock" ∈ explainFactors pd ∧ "critical_stock" ∈ explainFactors pd := by
  rintro ⟨pd, -, hc⟩
  exact explainFactors_no_critical pd hc

/-- Claim C8, amended: the stock conditions are evaluated as an ordered
first-match chain, so for every Snapshot the tag critical_stock never
appears in the factor list at all (its guard is shadowed by the low_stock
guard), and in particular low_stock and critical_stock never appear
together. -/
theorem critical_stock_unreachable (pd : ProductData) :
    "critical_stock" ∉ explainFactors pd ∧
      ¬ ("low_stock" ∈ explainFactors pd ∧ "critical_stock" ∈ explainFactors pd) := by
  have h := explainFactors_no_critical pd
  exact ⟨h, fun hc => h hc.2⟩

/-- Claim C9: batch_predict returns without error, with one prediction
per input product in input order (the map of the per item processing) and
total_processed equal to the input length; the empty input yields zero
and the empty list. -/
theorem batch_predict_length (env : InferenceEnv) (now : String)
    (products : List ProductData) :
    batch_predict env now products =
      .ok { predictions := products.map (batchItemResponse env now)
            total_processed := products.length
            timestamp := now }
    ∧ batch_predict env now [] =
      .ok { predictions := []
            total_processed := 0
            timestamp := now } := by
  constructor
  · simp [batch_predict, List.length_map]
  · rfl

/-- Claim C10: for every Snapshot with positive current price, with no
hypothesis on stock, calculate_rule_based_price returns at most
1.9348875 times current_price: the bounded multiplier is at most the
product of the reachable stage maxima 1.05, 1.25, 1.30, 1.05 (the 1.10
and 1.15 sales branches being shadowed) and 1.08. -/
theorem rule_price_absolute_bound (pd : ProductData) (hcp : 0 < pd.current_price) :
    calculate_rule_based_price pd ≤ 1.9348875 * pd.current_price := by
  have hm := boundedMultiplier_le_absolute pd
  simp only [calculate_rule_based_price]
  apply max_le
  · have := mul_le_mul_of_nonneg_left hm hcp.le
    linarith
  · linarith

/-- Witness for claim C10 at the scarcity Snapshot whose multiplier
reaches the bound exactly. -/
theorem rule_price_absolute_bound_witness :
    calculate_rule_based_price scarcitySnapshot ≤
      1.9348875 * scarcitySnapshot.current_price :=
  rule_price_absolute_bound scarcitySnapshot (by norm_num [scarcitySnapshot])

end DynamicPricing
